import Mathlib

set_option maxRecDepth 100000

/-! A verification development for src/crawler.py: a shallow embedding of the
crawl orchestration engine (URL parsing and link filtering, the fetch retry
wrapper, content selection, change detection over the framed file content, and
the breadth-first session loop), together with theorems about its invariants.
External collaborators (the headless fetch service, the hash digests, the title
lookup in rendered markup, the normalization routine of the deep-crawl library
and the robots policy) enter as oracle fields of an environment record. -/

namespace Crawler

/-! String helpers modelling the Python primitives used by crawler.py
(str.split, str.strip, str.lower, substring membership). -/

/-- Model of Python str.split(sep) for a one-character separator. -/
def splitChar (sep : Char) : List Char → List (List Char)
  | [] => [[]]
  | c :: cs =>
    if c = sep then [] :: splitChar sep cs
    else
      match splitChar sep cs with
      | [] => [[c]]
      | h :: t => (c :: h) :: t

/-- Model of Python str.split(sep, 1): the part before the first occurrence of
sep and, when sep occurs, the remainder after it. -/
def splitAtChar (sep : Char) : List Char → List Char × Option (List Char)
  | [] => ([], Option.none)
  | c :: cs =>
    if c = sep then ([], Option.some cs)
    else
      let r := splitAtChar sep cs
      (c :: r.1, r.2)

/-- Model of Python str.strip: whitespace removed at both ends. -/
def stripChars (l : List Char) : List Char :=
  ((l.dropWhile Char.isWhitespace).reverse.dropWhile Char.isWhitespace).reverse

def pyStrip (s : String) : String := String.mk (stripChars s.data)

/-- subListAny pat l is true iff pat occurs as a contiguous run inside l. -/
def subListAny (pat : List Char) : List Char → Bool
  | [] => pat.isEmpty
  | c :: rest => pat.isPrefixOf (c :: rest) || subListAny pat rest

/-- Model of Python `pat in s` on strings. -/
def strContains (s pat : String) : Bool := subListAny pat.data s.data

def toLowerL (l : List Char) : List Char := l.map Char.toLower

def strStartsWith (s pre : String) : Bool := pre.data.isPrefixOf s.data

/-! A model of urllib.parse: urlparse, urlunparse and urljoin, covering the URL
shapes that reach them in crawler.py. The params component (the text after a
semicolon in the last path segment) is not modelled; no URL considered in this
development carries one. -/

/-- Parsed URL components, as produced by urllib.parse.urlparse. -/
structure ParsedUrl where
  scheme : String
  netloc : String
  path : String
  query : String
  fragment : String
deriving Repr, DecidableEq

def schemeChar (c : Char) : Bool :=
  c.isAlpha || c.isDigit || c == '+' || c == '-' || c == '.'

/-- Split a leading scheme, as Python urlsplit does: the text before the first
colon is a scheme when it is nonempty, starts with a letter, and consists of
scheme characters only; the scheme is lower-cased. -/
def splitScheme (l : List Char) : Option (List Char × List Char) :=
  let pre := l.takeWhile schemeChar
  match l.dropWhile schemeChar with
  | ':' :: tail =>
    match pre with
    | [] => Option.none
    | c0 :: _ => if c0.isAlpha then Option.some (toLowerL pre, tail) else Option.none
  | _ => Option.none

def notNetlocEnd (c : Char) : Bool := !(c == '/' || c == '?' || c == '#')

/-- Model of urllib.parse.urlparse with a default scheme. -/
def urlparseDef (url : String) (defaultScheme : String) : ParsedUrl :=
  let l := url.data
  let sr : String × List Char :=
    match splitScheme l with
    | Option.some p => (String.mk p.1, p.2)
    | Option.none => (defaultScheme, l)
  let nr : List Char × List Char :=
    match sr.2 with
    | '/' :: '/' :: tail => (tail.takeWhile notNetlocEnd, tail.dropWhile notNetlocEnd)
    | rest => ([], rest)
  let rf := splitAtChar '#' nr.2
  let pq := splitAtChar '?' rf.1
  { scheme := sr.1, netloc := String.mk nr.1, path := String.mk pq.1,
    query := String.mk (pq.2.getD []), fragment := String.mk (rf.2.getD []) }

def urlparse (url : String) : ParsedUrl := urlparseDef url ""

def uses_relative : List String :=
  ["", "ftp", "http", "gopher", "nntp", "imap", "wais", "file", "https", "shttp",
   "mms", "prospero", "rtsp", "rtspu", "sftp", "svn", "svn+ssh", "ws", "wss"]

def uses_netloc : List String :=
  ["", "ftp", "http", "gopher", "nntp", "telnet", "imap", "wais", "file", "mms",
   "https", "shttp", "snews", "prospero", "rtsp", "rtspu", "rsync", "svn",
   "svn+ssh", "sftp", "nfs", "ws", "wss"]

/-- Model of urllib.parse.urlunsplit. -/
def urlunparse (scheme netloc path query fragment : String) : String :=
  let url := path
  let url :=
    if netloc ≠ "" ∨ (url ≠ "" ∧ strStartsWith url "//" = true) then
      let t := if url ≠ "" ∧ strStartsWith url "/" = false then "/" ++ url else url
      "//" ++ netloc ++ t
    else url
  let url := if scheme ≠ "" then scheme ++ ":" ++ url else url
  let url := if query ≠ "" then url ++ "?" ++ query else url
  if fragment ≠ "" then url ++ "#" ++ fragment else url

/-- CPython urljoin relative-path resolution (RFC 3986 dot-segment handling). -/
def joinPath (bpath path : String) : String :=
  let base_parts :=
    let bp := splitChar '/' bpath.data
    if bp.getLastD [] ≠ [] then bp.dropLast else bp
  let psegs := splitChar '/' path.data
  let segments :=
    match path.data with
    | '/' :: _ => psegs
    | _ =>
      match base_parts ++ psegs with
      | [] => []
      | f :: rest =>
        match rest.getLast? with
        | Option.none => [f]
        | Option.some lastEl =>
          f :: (rest.dropLast.filter (fun s => !s.isEmpty)) ++ [lastEl]
  let resolved := segments.foldl
    (fun acc seg =>
      if seg = ['.', '.'] then acc.dropLast
      else if seg = ['.'] then acc
      else acc ++ [seg]) []
  let resolved :=
    if segments.getLastD [] = ['.'] ∨ segments.getLastD [] = ['.', '.'] then
      resolved ++ [[]]
    else resolved
  let joined := List.intercalate ['/'] resolved
  if joined.isEmpty then "/" else String.mk joined

/-- Model of urllib.parse.urljoin. -/
def urljoin (base url : String) : String :=
  if base = "" then url
  else if url = "" then base
  else
    let b := urlparseDef base ""
    let u := urlparseDef url b.scheme
    if ¬ (u.scheme = b.scheme ∧ u.scheme ∈ uses_relative) then url
    else
      let early : Option String :=
        if u.scheme ∈ uses_netloc ∧ u.netloc ≠ "" then
          Option.some (urlunparse u.scheme u.netloc u.path u.query u.fragment)
        else Option.none
      match early with
      | Option.some s => s
      | Option.none =>
        let netloc := if u.scheme ∈ uses_netloc then b.netloc else u.netloc
        if u.path = "" then
          urlunparse u.scheme netloc b.path
            (if u.query = "" then b.query else u.query) u.fragment
        else
          urlunparse u.scheme netloc (joinPath b.path u.path) u.query u.fragment

/-! Pure helper functions of crawler.py. -/

/-- EXCLUDED_FILE_EXTENSIONS from crawler.py. -/
def EXCLUDED_FILE_EXTENSIONS : List String :=
  ["pdf", "doc", "docx", "xls", "xlsx", "zip", "rar",
   "jpg", "jpeg", "png", "gif", "svg", "css", "js", "xml"]

/-- has_file_extension from crawler.py: lower-cases the parsed path and, when
the path contains a dot, checks the text after the last dot (cut at the next
slash or question mark) against the given extension set. -/
def has_file_extension (url : String) (extensions : List String) : Bool :=
  let path := toLowerL (urlparse url).path.data
  if path.contains '.' then
    let ext := (splitChar '/' ((splitChar '.' path).getLastD [])).headD []
    let ext := (splitChar '?' ext).headD []
    extensions.contains (String.mk ext)
  else false

def badPathChar (c : Char) : Bool :=
  c == '<' || c == '>' || c == ':' || c == '"' || c == '|' ||
    c == '?' || c == '*' || c == '\\'

/-- url_to_file_path from crawler.py; the twelve-hex-character md5 digest of the
URL is supplied as an oracle. -/
def url_to_file_path (md5hex12 : String → String)
    (url site_code site_output_dir ext : String) : String :=
  let url_hash := md5hex12 url
  let path0 := (urlparse url).path.data
  let path := ((path0.dropWhile (fun c => c == '/')).reverse.dropWhile
    (fun c => c == '/')).reverse
  let file_name :=
    if path ≠ [] ∧ path ≠ ['/'] then
      let path_parts := (splitChar '/' path).filter (fun p => !p.isEmpty)
      match path_parts.getLast? with
      | Option.none => site_code ++ "_index_" ++ url_hash ++ "." ++ ext
      | Option.some lastPart =>
        let base_name := lastPart.map (fun c => if badPathChar c then '_' else c)
        let base_name :=
          if base_name.contains '.' then
            ((base_name.reverse.dropWhile (fun c => !(c == '.'))).drop 1).reverse
          else base_name
        if base_name ≠ [] then
          site_code ++ "_" ++ String.mk base_name ++ "_" ++ url_hash ++ "." ++ ext
        else site_code ++ "_" ++ url_hash ++ "." ++ ext
    else site_code ++ "_index_" ++ url_hash ++ "." ++ ext
  site_output_dir ++ "/" ++ file_name

/-! The data model of the orchestration engine. -/

/-- Python truthiness of an optional string: None and the empty string are falsy. -/
def pyTruthy : Option String → Bool
  | Option.none => false
  | Option.some s => !(s == "")

/-- Python `a or b` on optional strings. -/
def pyOr (a b : Option String) : Option String := if pyTruthy a then a else b

/-- The markdown attribute of a fetch result: absent, a plain string, or an
object carrying raw_markdown and fit_markdown. An attribute holding None and a
missing attribute are modelled alike as Option.none. -/
inductive MarkdownVal where
  | absent
  | str (s : String)
  | obj (raw fit : Option String)
deriving Repr, DecidableEq

/-- The shape of a crawl4ai fetch result, as probed by crawler.py. The metadata
field carries the title and og:title entries when the metadata dict is present. -/
structure FetchResult where
  success : Bool
  error_message : Option String
  status_code : Option Nat
  links : Option (List (Option String))
  html : Option String
  markdown : MarkdownVal
  metadata : Option (Option String × Option String)
deriving Repr, DecidableEq

/-- A registry entry: the fields of the JSON object kept per canonical URL.
Entries written by the crawler populate every field; entries read from disk may
lack some, hence the optional types. Timestamps are modelled by the session
tick counter. -/
structure RegistryEntry where
  hash : Option String
  last_crawled : Option Nat
  path : Option String
deriving Repr, DecidableEq

/-- The stats dictionary of SiteCrawler (timing fields omitted); errors is the
defaultdict of per-error-kind counts. -/
structure Stats where
  success : Nat := 0
  failed : Nat := 0
  errors : String → Nat := fun _ => 0
  saved_files : List String := []
  links_found : Nat := 0
  links_added : Nat := 0
  queue_remaining : Nat := 0
  skipped_unchanged : Nat := 0
  skipped_by_robots : Nat := 0

/-- The mutable session state: frontier queue, visited set, registry, stats,
the files written so far, the trace of URLs handed to the fetch wrapper, and a
tick counter standing for the wall clock. -/
structure CrawlState where
  visited : List String
  queue : List String
  registry : String → Option RegistryEntry
  stats : Stats
  files : List (String × String)
  fetched : List String
  tick : Nat

/-- The session configuration plus the external collaborators of the engine:
the normalization routine, the robots policy (None when ignored or not
loaded), the fetch service under the primary and the fallback configurations
(an Except.error models a raised fetch exception), the BeautifulSoup title
lookup, the sha256 and md5 digests, and the write oracle (Option.some models
an OSError raised while opening or writing the output file). -/
structure CrawlEnv where
  base_url : String
  max_pages : Nat
  content_format : String
  site_code : String
  site_output_dir : String
  normalize : String → String → String
  robot : Option (String → Bool)
  fetchPrimary : String → Except String FetchResult
  fetchFallback : String → Except String FetchResult
  soupTitle : String → Option String
  sha256 : String → String
  md5hex12 : String → String
  writeError : String → Option String

/-- self.base_domain_netloc of SiteCrawler. -/
def baseDomainNetloc (env : CrawlEnv) : String := (urlparse env.base_url).netloc

/-- _is_allowed_by_robots from crawler.py: allow when no policy is loaded; a
policy evaluation failure also answers allow, which the oracle subsumes. -/
def isAllowedByRobots (env : CrawlEnv) (url : String) : Bool :=
  match env.robot with
  | Option.none => true
  | Option.some canFetch => canFetch url

def bumpError (f : String → Nat) (e : String) : String → Nat :=
  fun x => if x = e then f x + 1 else f x

def updateReg (f : String → Option RegistryEntry) (k : String) (v : RegistryEntry) :
    String → Option RegistryEntry :=
  fun x => if x = k then Option.some v else f x

/-- _record_error from crawler.py. -/
def recordError (st : CrawlState) (url error_type : String) : CrawlState :=
  { st with stats := { st.stats with
      failed := st.stats.failed + 1,
      errors := bumpError st.stats.errors error_type } }

def navTimeoutMarker : String := "Page.goto: Timeout"

/-- _fetch_with_timeout_handling from crawler.py: when the primary attempt
raises an error whose text carries the navigation-timeout marker, retry once
with the fallback configuration; any other raised error propagates, as does an
error raised by the fallback attempt itself. The second component counts fetch
attempts (1 or 2). -/
def fetchWithTimeoutHandling (env : CrawlEnv) (url : String) :
    Except String FetchResult × Nat :=
  match env.fetchPrimary url with
  | Except.ok r => (Except.ok r, 1)
  | Except.error e =>
    if strContains e navTimeoutMarker then (env.fetchFallback url, 2)
    else (Except.error e, 1)

/-- The markdown heading scan of _extract_title: the first of the given lines
that, stripped, starts a level-one or level-two heading. -/
def scanHeading : List (List Char) → Option String
  | [] => Option.none
  | l :: rest =>
    let t := stripChars l
    if "# ".data.isPrefixOf t then Option.some (String.mk (stripChars (t.drop 2)))
    else if "## ".data.isPrefixOf t then Option.some (String.mk (stripChars (t.drop 3)))
    else scanHeading rest

/-- _extract_title from crawler.py: metadata title, then the BeautifulSoup
title lookup (an external collaborator, modelled by the soupTitle oracle), then
a heading in the first ten markdown lines, then the placeholder. -/
def extractTitle (env : CrawlEnv) (result : FetchResult) : String :=
  let meta_title :=
    match result.metadata with
    | Option.some p => pyOr p.1 p.2
    | Option.none => Option.none
  if pyTruthy meta_title then pyStrip (meta_title.getD "")
  else
    let soup :=
      match result.html with
      | Option.some h => if h ≠ "" then env.soupTitle h else Option.none
      | Option.none => Option.none
    match soup with
    | Option.some t => pyStrip t
    | Option.none =>
      let md :=
        match result.markdown with
        | MarkdownVal.absent => Option.none
        | MarkdownVal.obj raw fit =>
          if pyTruthy fit then fit else if pyTruthy raw then raw else Option.none
        | MarkdownVal.str s => Option.some s
      if pyTruthy md then
        match scanHeading ((splitChar '\n' (md.getD "").data).take 10) with
        | Option.some t => t
        | Option.none => "Без заголовка"
      else "Без заголовка"

/-- _extract_content from crawler.py: the payload and file extension for the
configured output format. -/
def extractContent (env : CrawlEnv) (result : FetchResult) : Option String × String :=
  if env.content_format = "html" then (result.html, "html")
  else
    match result.markdown with
    | MarkdownVal.absent => (Option.none, "md")
    | MarkdownVal.str s =>
      if env.content_format = "raw-md" then (pyOr (Option.some s) Option.none, "md")
      else (pyOr Option.none (Option.some s), "md")
    | MarkdownVal.obj raw fit =>
      if env.content_format = "raw-md" then (pyOr raw fit, "md")
      else (pyOr fit raw, "md")

/-- One step of the link filter of _extract_links from crawler.py: skip absent,
non-string and empty hrefs; drop a link whose resolved host is nonempty and
differs from the base domain; drop excluded extensions; drop duplicates. -/
def linkStep (env : CrawlEnv) (current_url : String) (links : List String)
    (item : Option String) : List String :=
  match item with
  | Option.none => links
  | Option.some href =>
    if href = "" then links
    else
      let parsed_netloc := (urlparse (urljoin current_url href)).netloc
      if parsed_netloc ≠ "" ∧ parsed_netloc ≠ baseDomainNetloc env then links
      else if has_file_extension href EXCLUDED_FILE_EXTENSIONS then links
      else if href ∈ links then links
      else links ++ [href]

/-- _extract_links from crawler.py; Option.none for the links field models a
result without a links dict holding an internal list. -/
def extractLinks (env : CrawlEnv) (result : FetchResult) (current_url : String) :
    List String :=
  match result.links with
  | Option.none => []
  | Option.some items => items.foldl (linkStep env current_url) []

/-- One enqueue step of _crawl_page (lines 481-488): the link is enqueued only
when its normalized form is in neither the visited set nor the queue. -/
def enqueueOne (env : CrawlEnv) (page_url : String) (s : CrawlState) (link : String) :
    CrawlState :=
  let nl := env.normalize link page_url
  if nl ∉ s.visited ∧ nl ∉ s.queue then
    { s with queue := s.queue ++ [nl],
             stats := { s.stats with links_added := s.stats.links_added + 1 } }
  else s

/-- The link accounting and enqueueing of _crawl_page (lines 479-488). -/
def enqueueLinks (env : CrawlEnv) (st : CrawlState) (page_url : String)
    (links : List String) : CrawlState :=
  if links = [] then st
  else
    let st := { st with stats := { st.stats with
        links_found := st.stats.links_found + links.length } }
    links.foldl (enqueueOne env page_url) st

/-- The framed file content of _crawl_page (lines 500-517): a metadata block
with the canonical URL and the extracted title, then the selected payload. -/
def frameContent (normalized_url page_title content ext : String) : String :=
  if ext = "md" then
    "---\nURL: " ++ normalized_url ++ "\nЗаголовок: " ++ page_title ++ "\n---\n\n"
      ++ content ++ "\n"
  else
    "<!--\n---\nURL: " ++ normalized_url ++ "\nЗаголовок: " ++ page_title
      ++ "\n---\n-->\n" ++ content ++ "\n"

/-- Hashing, change detection, persistence and registry upkeep of _crawl_page
(lines 519-550). -/
def persistFramed (env : CrawlEnv) (st : CrawlState)
    (url normalized_url content ext page_title : String) : CrawlState :=
  let file_content := frameContent normalized_url page_title content ext
  let file_path := url_to_file_path env.md5hex12 url env.site_code env.site_output_dir ext
  let content_hash := env.sha256 file_content
  let stored := st.registry normalized_url
  let timestamp := st.tick
  if stored.bind RegistryEntry.hash = Option.some content_hash then
    let stored_path := (stored.bind RegistryEntry.path).getD file_path
    { st with
      registry := updateReg st.registry normalized_url
        ⟨Option.some content_hash, Option.some timestamp, Option.some stored_path⟩,
      tick := st.tick + 1,
      stats := { st.stats with
        success := st.stats.success + 1,
        skipped_unchanged := st.stats.skipped_unchanged + 1 } }
  else
    match env.writeError file_path with
    | Option.some e => recordError st url e
    | Option.none =>
      { st with
        files := st.files ++ [(file_path, file_content)],
        registry := updateReg st.registry normalized_url
          ⟨Option.some content_hash, Option.some timestamp, Option.some file_path⟩,
        tick := st.tick + 1,
        stats := { st.stats with
          success := st.stats.success + 1,
          saved_files := st.stats.saved_files ++ [file_path] } }

/-- Content selection, title extraction and persistence of _crawl_page
(lines 490-550). -/
def evaluateAndPersist (env : CrawlEnv) (st : CrawlState) (url normalized_url : String)
    (result : FetchResult) : CrawlState :=
  let ce := extractContent env result
  if pyTruthy ce.1 = false then recordError st url "Нет контента"
  else persistFramed env st url normalized_url (ce.1.getD "") ce.2 (extractTitle env result)

/-- Outcome handling of _crawl_page once a fetch returned (lines 463-550):
failed outcome, disallowed status codes, then link discovery and persistence. -/
def handleResult (env : CrawlEnv) (st : CrawlState) (url normalized_url : String)
    (result : FetchResult) : CrawlState :=
  if result.success = false then
    recordError st url (result.error_message.getD "Неизвестная ошибка")
  else if result.status_code = Option.some 403 then recordError st url "403 Forbidden"
  else if result.status_code = Option.some 404 then recordError st url "404 Not Found"
  else
    let links := extractLinks env result url
    evaluateAndPersist env (enqueueLinks env st url links) url normalized_url result

/-- The fetch and the try block of _crawl_page (lines 452-553): the fetch
attempt is appended to the fetched trace; an error raised out of the fetch
wrapper is caught at the page boundary and recorded against the URL. -/
def dispatchFetch (env : CrawlEnv) (st : CrawlState) (url normalized_url : String) :
    CrawlState :=
  let st := { st with fetched := st.fetched ++ [normalized_url] }
  match (fetchWithTimeoutHandling env normalized_url).1 with
  | Except.error e => recordError st url e
  | Except.ok result => handleResult env st url normalized_url result

/-- _crawl_page from crawler.py (lines 431-553): normalize, consult the robots
gate, drop already-visited URLs, mark visited, then fetch and evaluate. -/
def crawlPage (env : CrawlEnv) (st : CrawlState) (url : String) : CrawlState :=
  let normalized_url := env.normalize url env.base_url
  if isAllowedByRobots env normalized_url = false then
    { st with stats := { st.stats with
        skipped_by_robots := st.stats.skipped_by_robots + 1 } }
  else if normalized_url ∈ st.visited then st
  else dispatchFetch env { st with visited := normalized_url :: st.visited }
    url normalized_url

/-- The session loop of crawl (lines 580-582): pop and evaluate while the queue
is non-empty and the visited count is below the page budget. The fuel argument
bounds the number of iterations; every claim about the loop holds for every
fuel, and on concrete inputs a sufficiently large fuel reaches the fixpoint. -/
def crawlLoop (env : CrawlEnv) : Nat → CrawlState → CrawlState
  | 0, st => st
  | fuel + 1, st =>
    match st.queue with
    | [] => st
    | url :: rest =>
      if st.visited.length < env.max_pages then
        crawlLoop env fuel (crawlPage env { st with queue := rest } url)
      else st

/-- crawl from crawler.py: seed the queue with the normalized base URL, run the
loop, then record the remaining queue length; reg0 is the registry loaded at
session start. -/
def crawl (env : CrawlEnv) (reg0 : String → Option RegistryEntry) (fuel : Nat) :
    CrawlState :=
  let nbase := env.normalize env.base_url env.base_url
  let st0 : CrawlState :=
    { visited := [], queue := [nbase], registry := reg0, stats := {},
      files := [], fetched := [], tick := 0 }
  let fin := crawlLoop env fuel st0
  { fin with stats := { fin.stats with queue_remaining := fin.queue.length } }

/-! Concrete stub environments used by the scenario theorems: an identity
normalization routine, no robots policy unless stated, injective stand-ins for
the digests, and fetch stubs defining small link graphs. -/

/-- A successful fetch result carrying the given internal links and markdown
payload. -/
def okResult (ls : List String) (body : String) : FetchResult :=
  { success := true, error_message := Option.none, status_code := Option.some 200,
    links := Option.some (ls.map Option.some), html := Option.none,
    markdown := MarkdownVal.obj (Option.some body) (Option.some body),
    metadata := Option.none }

/-- A stub environment around a fetch function. -/
def stubEnv (bu : String) (mp : Nat) (fp : String → Except String FetchResult) :
    CrawlEnv :=
  { base_url := bu, max_pages := mp, content_format := "filtered-md",
    site_code := "s", site_output_dir := "out",
    normalize := fun u _ => u,
    robot := Option.none,
    fetchPrimary := fp, fetchFallback := fp,
    soupTitle := fun _ => Option.none,
    sha256 := fun s => s,
    md5hex12 := fun _ => "h",
    writeError := fun _ => Option.none }

def emptyReg : String → Option RegistryEntry := fun _ => Option.none

/-- Link graph for the visit-once scenario: the base page links to p1 and p2,
which both link to the common target t. -/
def fetchDiamond : String → Except String FetchResult := fun u =>
  if u = "http://s/" then Except.ok (okResult ["http://s/p1", "http://s/p2"] "x")
  else if u = "http://s/p1" then Except.ok (okResult ["http://s/t"] "x")
  else if u = "http://s/p2" then Except.ok (okResult ["http://s/t"] "x")
  else Except.ok (okResult [] "x")

def envDiamond : CrawlEnv := stubEnv "http://s/" 10 fetchDiamond

/-- Link graph for the bounded-traversal scenario: every page yields two fresh
same-domain links, so the frontier grows without bound. -/
def fetchExpand : String → Except String FetchResult := fun u =>
  Except.ok (okResult [u ++ "/a", u ++ "/b"] "x")

def envExpand : CrawlEnv := stubEnv "http://s" 2 fetchExpand

/-- An initial state with an empty frontier and the given registry. -/
def mkState (reg : String → Option RegistryEntry) : CrawlState :=
  { visited := [], queue := [], registry := reg, stats := {}, files := [],
    fetched := [], tick := 0 }

def st0S : CrawlState := mkState emptyReg

def stSeen : CrawlState := { mkState emptyReg with visited := ["http://s/t"] }

def stB : CrawlState :=
  { mkState emptyReg with
    visited := ["http://s/x", "http://s/y"]
    queue := ["http://s/z"] }

/-- Fetch stub serving one page that carries a mailto link and a cross-domain
link. -/
def resMailto : FetchResult := okResult ["mailto:u@o", "http://x/z"] "x"

def envMailto : CrawlEnv := stubEnv "http://e/a" 1 (fun _ => Except.ok resMailto)

/-- A page whose only link has an excluded extension in a non-final path
segment. -/
def resC7 : FetchResult := okResult ["http://e/a.pdf/b"] "x"

def envC7 : CrawlEnv := stubEnv "http://e/a" 5 (fun _ => Except.ok resC7)

/-- A successful fetch whose selected content is empty but which still carries
a link. -/
def resEmptyContent : FetchResult :=
  { success := true, error_message := Option.none, status_code := Option.some 200,
    links := Option.some [Option.some "http://s/l"], html := Option.none,
    markdown := MarkdownVal.obj Option.none Option.none, metadata := Option.none }

def envEmptyC : CrawlEnv := stubEnv "http://s" 10 (fun _ => Except.ok resEmptyContent)

/-- The framed content the unchanged-page scenario hashes to. -/
def fcU : String := frameContent "http://s" "Без заголовка" "x" "md"

def regU : String → Option RegistryEntry := fun x =>
  if x = "http://s" then
    Option.some ⟨Option.some fcU, Option.some 0, Option.some "old"⟩
  else Option.none

def stU : CrawlState := mkState regU

def envU : CrawlEnv :=
  stubEnv "http://s" 10 (fun _ => Except.ok (okResult ["http://s/l"] "x"))

/-- Link graph where one interior page raises a non-timeout fetch error. -/
def fetchFail : String → Except String FetchResult := fun u =>
  if u = "http://s/a" then Except.error "boom"
  else if u = "http://s" then Except.ok (okResult ["http://s/a", "http://s/b"] "x")
  else Except.ok (okResult [] "x")

def envFail : CrawlEnv := stubEnv "http://s" 10 fetchFail

/-- A fetch service whose primary configuration times out and whose fallback
configuration succeeds. -/
def resTO : FetchResult := okResult [] "x"

def envTO : CrawlEnv :=
  { stubEnv "http://s" 10 (fun _ => Except.ok resTO) with
    fetchPrimary := fun _ => Except.error "Page.goto: Timeout 30000ms exceeded",
    fetchFallback := fun _ => Except.ok resTO }

/-- A fetch service raising a non-timeout error on every URL. -/
def envErr : CrawlEnv :=
  { stubEnv "http://s" 10 fetchExpand with fetchPrimary := fun _ => Except.error "boom" }

/-- An environment whose robots policy denies every URL. -/
def envDeny : CrawlEnv :=
  { stubEnv "http://s" 10 fetchExpand with robot := Option.some (fun _ => false) }

/-- A fetch outcome with success false. -/
def resFail : FetchResult :=
  { success := false, error_message := Option.some "net::ERR",
    status_code := Option.none, links := Option.none, html := Option.none,
    markdown := MarkdownVal.absent, metadata := Option.none }

def envResFail : CrawlEnv := stubEnv "http://s" 10 (fun _ => Except.ok resFail)

/-- An environment whose file writes raise an OSError. -/
def envWErr : CrawlEnv :=
  { stubEnv "http://s" 10 fetchExpand with writeError := fun _ => Option.some "disk full" }

/-- Registry and state for the change-detection witness. -/
def fcC2 : String := frameContent "u" "t" "c" "md"

def regC2 : String → Option RegistryEntry := fun x =>
  if x = "u" then
    Option.some ⟨Option.some fcC2, Option.some 0, Option.some "p"⟩
  else Option.none

def stC2 : CrawlState := { mkState regC2 with tick := 5 }

def envC2 : CrawlEnv := stubEnv "http://s" 1 fetchExpand

/-! Preservation lemmas: which state components each stage leaves untouched. -/

@[simp] lemma recordError_visited (st : CrawlState) (u e : String) :
    (recordError st u e).visited = st.visited := rfl

@[simp] lemma recordError_queue (st : CrawlState) (u e : String) :
    (recordError st u e).queue = st.queue := rfl

@[simp] lemma recordError_fetched (st : CrawlState) (u e : String) :
    (recordError st u e).fetched = st.fetched := rfl

@[simp] lemma recordError_files (st : CrawlState) (u e : String) :
    (recordError st u e).files = st.files := rfl

@[simp] lemma recordError_registry (st : CrawlState) (u e : String) :
    (recordError st u e).registry = st.registry := rfl

@[simp] lemma recordError_success (st : CrawlState) (u e : String) :
    (recordError st u e).stats.success = st.stats.success := rfl

@[simp] lemma recordError_failed (st : CrawlState) (u e : String) :
    (recordError st u e).stats.failed = st.stats.failed + 1 := rfl

@[simp] lemma recordError_errors (st : CrawlState) (u e : String) :
    (recordError st u e).stats.errors = bumpError st.stats.errors e := rfl

@[simp] lemma recordError_links_found (st : CrawlState) (u e : String) :
    (recordError st u e).stats.links_found = st.stats.links_found := rfl

@[simp] lemma recordError_links_added (st : CrawlState) (u e : String) :
    (recordError st u e).stats.links_added = st.stats.links_added := rfl

@[simp] lemma enqueueOne_visited (env : CrawlEnv) (pu : String) (s : CrawlState)
    (l : String) : (enqueueOne env pu s l).visited = s.visited := by
  simp only [enqueueOne]; split <;> rfl

@[simp] lemma enqueueOne_fetched (env : CrawlEnv) (pu : String) (s : CrawlState)
    (l : String) : (enqueueOne env pu s l).fetched = s.fetched := by
  simp only [enqueueOne]; split <;> rfl

@[simp] lemma enqueueOne_files (env : CrawlEnv) (pu : String) (s : CrawlState)
    (l : String) : (enqueueOne env pu s l).files = s.files := by
  simp only [enqueueOne]; split <;> rfl

@[simp] lemma enqueueOne_registry (env : CrawlEnv) (pu : String) (s : CrawlState)
    (l : String) : (enqueueOne env pu s l).registry = s.registry := by
  simp only [enqueueOne]; split <;> rfl

@[simp] lemma enqueueOne_success (env : CrawlEnv) (pu : String) (s : CrawlState)
    (l : String) : (enqueueOne env pu s l).stats.success = s.stats.success := by
  simp only [enqueueOne]; split <;> rfl

@[simp] lemma enqueueOne_failed (env : CrawlEnv) (pu : String) (s : CrawlState)
    (l : String) : (enqueueOne env pu s l).stats.failed = s.stats.failed := by
  simp only [enqueueOne]; split <;> rfl

@[simp] lemma enqueueOne_tick (env : CrawlEnv) (pu : String) (s : CrawlState)
    (l : String) : (enqueueOne env pu s l).tick = s.tick := by
  simp only [enqueueOne]; split <;> rfl

lemma foldl_enqueueOne_visited (env : CrawlEnv) (pu : String) :
    ∀ (ls : List String) (s : CrawlState),
      (ls.foldl (enqueueOne env pu) s).visited = s.visited := by
  intro ls
  induction ls with
  | nil => intro s; rfl
  | cons a t ih => intro s; rw [List.foldl_cons, ih, enqueueOne_visited]

lemma foldl_enqueueOne_fetched (env : CrawlEnv) (pu : String) :
    ∀ (ls : List String) (s : CrawlState),
      (ls.foldl (enqueueOne env pu) s).fetched = s.fetched := by
  intro ls
  induction ls with
  | nil => intro s; rfl
  | cons a t ih => intro s; rw [List.foldl_cons, ih, enqueueOne_fetched]

lemma foldl_enqueueOne_success (env : CrawlEnv) (pu : String) :
    ∀ (ls : List String) (s : CrawlState),
      (ls.foldl (enqueueOne env pu) s).stats.success = s.stats.success := by
  intro ls
  induction ls with
  | nil => intro s; rfl
  | cons a t ih => intro s; rw [List.foldl_cons, ih, enqueueOne_success]

lemma foldl_enqueueOne_failed (env : CrawlEnv) (pu : String) :
    ∀ (ls : List String) (s : CrawlState),
      (ls.foldl (enqueueOne env pu) s).stats.failed = s.stats.failed := by
  intro ls
  induction ls with
  | nil => intro s; rfl
  | cons a t ih => intro s; rw [List.foldl_cons, ih, enqueueOne_failed]

@[simp] lemma enqueueLinks_visited (env : CrawlEnv) (st : CrawlState)
    (pu : String) (ls : List String) :
    (enqueueLinks env st pu ls).visited = st.visited := by
  simp only [enqueueLinks]; split
  · rfl
  · rw [foldl_enqueueOne_visited]

@[simp] lemma enqueueLinks_fetched (env : CrawlEnv) (st : CrawlState)
    (pu : String) (ls : List String) :
    (enqueueLinks env st pu ls).fetched = st.fetched := by
  simp only [enqueueLinks]; split
  · rfl
  · rw [foldl_enqueueOne_fetched]

@[simp] lemma enqueueLinks_success (env : CrawlEnv) (st : CrawlState)
    (pu : String) (ls : List String) :
    (enqueueLinks env st pu ls).stats.success = st.stats.success := by
  simp only [enqueueLinks]; split
  · rfl
  · rw [foldl_enqueueOne_success]

@[simp] lemma enqueueLinks_failed (env : CrawlEnv) (st : CrawlState)
    (pu : String) (ls : List String) :
    (enqueueLinks env st pu ls).stats.failed = st.stats.failed := by
  simp only [enqueueLinks]; split
  · rfl
  · rw [foldl_enqueueOne_failed]

@[simp] lemma persistFramed_visited (env : CrawlEnv) (st : CrawlState)
    (u n c e t : String) : (persistFramed env st u n c e t).visited = st.visited := by
  simp only [persistFramed]; split
  · rfl
  · split <;> rfl

@[simp] lemma persistFramed_queue (env : CrawlEnv) (st : CrawlState)
    (u n c e t : String) : (persistFramed env st u n c e t).queue = st.queue := by
  simp only [persistFramed]; split
  · rfl
  · split <;> rfl

@[simp] lemma persistFramed_fetched (env : CrawlEnv) (st : CrawlState)
    (u n c e t : String) : (persistFramed env st u n c e t).fetched = st.fetched := by
  simp only [persistFramed]; split
  · rfl
  · split <;> rfl

@[simp] lemma persistFramed_links_found (env : CrawlEnv) (st : CrawlState)
    (u n c e t : String) :
    (persistFramed env st u n c e t).stats.links_found = st.stats.links_found := by
  simp only [persistFramed]; split
  · rfl
  · split <;> rfl

@[simp] lemma persistFramed_links_added (env : CrawlEnv) (st : CrawlState)
    (u n c e t : String) :
    (persistFramed env st u n c e t).stats.links_added = st.stats.links_added := by
  simp only [persistFramed]; split
  · rfl
  · split <;> rfl

lemma persistFramed_sum (env : CrawlEnv) (st : CrawlState) (u n c e t : String) :
    (persistFramed env st u n c e t).stats.success
      + (persistFramed env st u n c e t).stats.failed
      = st.stats.success + st.stats.failed + 1 := by
  simp only [persistFramed]; split
  · simp; omega
  · split
    · simp; omega
    · simp; omega

@[simp] lemma evaluateAndPersist_visited (env : CrawlEnv) (st : CrawlState)
    (u n : String) (r : FetchResult) :
    (evaluateAndPersist env st u n r).visited = st.visited := by
  simp only [evaluateAndPersist]; split <;> simp

@[simp] lemma evaluateAndPersist_queue (env : CrawlEnv) (st : CrawlState)
    (u n : String) (r : FetchResult) :
    (evaluateAndPersist env st u n r).queue = st.queue := by
  simp only [evaluateAndPersist]; split <;> simp

@[simp] lemma evaluateAndPersist_fetched (env : CrawlEnv) (st : CrawlState)
    (u n : String) (r : FetchResult) :
    (evaluateAndPersist env st u n r).fetched = st.fetched := by
  simp only [evaluateAndPersist]; split <;> simp

@[simp] lemma evaluateAndPersist_links_found (env : CrawlEnv) (st : CrawlState)
    (u n : String) (r : FetchResult) :
    (evaluateAndPersist env st u n r).stats.links_found = st.stats.links_found := by
  simp only [evaluateAndPersist]; split <;> simp

@[simp] lemma evaluateAndPersist_links_added (env : CrawlEnv) (st : CrawlState)
    (u n : String) (r : FetchResult) :
    (evaluateAndPersist env st u n r).stats.links_added = st.stats.links_added := by
  simp only [evaluateAndPersist]; split <;> simp

lemma evaluateAndPersist_sum (env : CrawlEnv) (st : CrawlState)
    (u n : String) (r : FetchResult) :
    (evaluateAndPersist env st u n r).stats.success
      + (evaluateAndPersist env st u n r).stats.failed
      = st.stats.success + st.stats.failed + 1 := by
  simp only [evaluateAndPersist]; split
  · simp; omega
  · exact persistFramed_sum ..

lemma handleResult_visited (env : CrawlEnv) (st : CrawlState)
    (u n : String) (r : FetchResult) :
    (handleResult env st u n r).visited = st.visited := by
  simp only [handleResult]
  split
  · rfl
  · split
    · rfl
    · split
      · rfl
      · simp

lemma handleResult_fetched (env : CrawlEnv) (st : CrawlState)
    (u n : String) (r : FetchResult) :
    (handleResult env st u n r).fetched = st.fetched := by
  simp only [handleResult]
  split
  · rfl
  · split
    · rfl
    · split
      · rfl
      · simp

lemma handleResult_sum (env : CrawlEnv) (st : CrawlState)
    (u n : String) (r : FetchResult) :
    (handleResult env st u n r).stats.success + (handleResult env st u n r).stats.failed
      = st.stats.success + st.stats.failed + 1 := by
  simp only [handleResult]
  split
  · simp; omega
  · split
    · simp; omega
    · split
      · simp; omega
      · rw [evaluateAndPersist_sum, enqueueLinks_success, enqueueLinks_failed]

lemma dispatchFetch_visited (env : CrawlEnv) (st : CrawlState) (u n : String) :
    (dispatchFetch env st u n).visited = st.visited := by
  simp only [dispatchFetch]
  split
  · rfl
  · rw [handleResult_visited]

lemma dispatchFetch_fetched (env : CrawlEnv) (st : CrawlState) (u n : String) :
    (dispatchFetch env st u n).fetched = st.fetched ++ [n] := by
  simp only [dispatchFetch]
  split
  · rfl
  · rw [handleResult_fetched]

lemma dispatchFetch_sum (env : CrawlEnv) (st : CrawlState) (u n : String) :
    (dispatchFetch env st u n).stats.success + (dispatchFetch env st u n).stats.failed
      = st.stats.success + st.stats.failed + 1 := by
  simp only [dispatchFetch]
  split
  · simp; omega
  · rw [handleResult_sum]

/-! Case analysis of crawlPage: the three possible shapes of a dispatch. -/

lemma crawlPage_blocked (env : CrawlEnv) (st : CrawlState) (url : String)
    (h : isAllowedByRobots env (env.normalize url env.base_url) = false) :
    crawlPage env st url = { st with stats := { st.stats with
      skipped_by_robots := st.stats.skipped_by_robots + 1 } } := by
  simp only [crawlPage, h, if_pos]

lemma crawlPage_seen (env : CrawlEnv) (st : CrawlState) (url : String)
    (h : isAllowedByRobots env (env.normalize url env.base_url) = true)
    (hv : env.normalize url env.base_url ∈ st.visited) :
    crawlPage env st url = st := by
  simp [crawlPage, h, hv]

lemma crawlPage_new (env : CrawlEnv) (st : CrawlState) (url : String)
    (h : isAllowedByRobots env (env.normalize url env.base_url) = true)
    (hv : env.normalize url env.base_url ∉ st.visited) :
    crawlPage env st url = dispatchFetch env
      { st with visited := env.normalize url env.base_url :: st.visited }
      url (env.normalize url env.base_url) := by
  simp [crawlPage, h, hv]

/-- Invariant transport along the session loop. -/
lemma crawlLoop_invariant (env : CrawlEnv) (P : CrawlState → Prop)
    (hstep : ∀ st url, P st → P (crawlPage env st url))
    (hpop : ∀ (st : CrawlState) url rest, st.queue = url :: rest →
      P st → P { st with queue := rest }) :
    ∀ (fuel : Nat) (st : CrawlState), P st → P (crawlLoop env fuel st) := by
  intro fuel
  induction fuel with
  | zero => intro st h; simpa [crawlLoop] using h
  | succ n ih =>
    intro st h
    rw [crawlLoop]
    rcases hq : st.queue with _ | ⟨u, rest⟩
    · exact h
    · simp only []
      split
      · exact ih _ (hstep _ _ (hpop st u rest hq h))
      · exact h

@[simp] lemma enqueueOne_errors (env : CrawlEnv) (pu : String) (s : CrawlState)
    (l : String) : (enqueueOne env pu s l).stats.errors = s.stats.errors := by
  simp only [enqueueOne]; split <;> rfl

lemma foldl_enqueueOne_errors (env : CrawlEnv) (pu : String) :
    ∀ (ls : List String) (s : CrawlState),
      (ls.foldl (enqueueOne env pu) s).stats.errors = s.stats.errors := by
  intro ls
  induction ls with
  | nil => intro s; rfl
  | cons a t ih => intro s; rw [List.foldl_cons, ih, enqueueOne_errors]

@[simp] lemma enqueueLinks_errors (env : CrawlEnv) (st : CrawlState)
    (pu : String) (ls : List String) :
    (enqueueLinks env st pu ls).stats.errors = st.stats.errors := by
  simp only [enqueueLinks]; split
  · rfl
  · rw [foldl_enqueueOne_errors]

/-! The visit-once invariant: the trace of URLs handed to the fetch wrapper has
no duplicates, and every fetched URL is in the visited set. -/

def visitOnceInv (st : CrawlState) : Prop :=
  st.fetched.Nodup ∧ ∀ u ∈ st.fetched, u ∈ st.visited

lemma visitOnceInv_crawlPage (env : CrawlEnv) (st : CrawlState) (url : String)
    (h : visitOnceInv st) : visitOnceInv (crawlPage env st url) := by
  by_cases hr : isAllowedByRobots env (env.normalize url env.base_url) = true
  · by_cases hv : env.normalize url env.base_url ∈ st.visited
    · rw [crawlPage_seen env st url hr hv]; exact h
    · rw [crawlPage_new env st url hr hv]
      have hf := dispatchFetch_fetched env
        { st with visited := env.normalize url env.base_url :: st.visited }
        url (env.normalize url env.base_url)
      have hvis := dispatchFetch_visited env
        { st with visited := env.normalize url env.base_url :: st.visited }
        url (env.normalize url env.base_url)
      constructor
      · rw [hf]
        refine List.Nodup.append h.1 (List.nodup_singleton _) ?_
        intro a ha hb
        rw [List.mem_singleton] at hb
        subst hb
        exact hv (h.2 _ ha)
      · intro u hu
        rw [hf] at hu
        rw [hvis]
        rcases List.mem_append.mp hu with hu | hu
        · exact List.mem_cons_of_mem _ (h.2 u hu)
        · rw [List.mem_singleton] at hu
          subst hu
          exact List.mem_cons_self _ _
  · rw [crawlPage_blocked env st url (by simpa using hr)]
    exact h

lemma visitOnceInv_pop (st : CrawlState) (url : String) (rest : List String)
    (hq : st.queue = url :: rest) (h : visitOnceInv st) :
    visitOnceInv { st with queue := rest } := h

lemma crawl_visitOnceInv (env : CrawlEnv) (reg0 : String → Option RegistryEntry)
    (fuel : Nat) :
    (crawl env reg0 fuel).fetched.Nodup
    ∧ ∀ u ∈ (crawl env reg0 fuel).fetched, u ∈ (crawl env reg0 fuel).visited := by
  have h := crawlLoop_invariant env visitOnceInv
    (visitOnceInv_crawlPage env) (fun st url rest hq h => visitOnceInv_pop st url rest hq h)
    fuel
    { visited := [], queue := [env.normalize env.base_url env.base_url],
      registry := reg0, stats := {}, files := [], fetched := [], tick := 0 }
    ⟨List.nodup_nil, by intro u hu; exact absurd hu (List.not_mem_nil u)⟩
  exact h

/-! The accounting invariant: the success and failed counters together never
exceed the visited count, since each is bumped only after a visited insertion. -/

def budgetInv (st : CrawlState) : Prop :=
  st.stats.success + st.stats.failed ≤ st.visited.length

lemma budgetInv_crawlPage (env : CrawlEnv) (st : CrawlState) (url : String)
    (h : budgetInv st) : budgetInv (crawlPage env st url) := by
  by_cases hr : isAllowedByRobots env (env.normalize url env.base_url) = true
  · by_cases hv : env.normalize url env.base_url ∈ st.visited
    · rw [crawlPage_seen env st url hr hv]; exact h
    · rw [crawlPage_new env st url hr hv]
      have hs := dispatchFetch_sum env
        { st with visited := env.normalize url env.base_url :: st.visited }
        url (env.normalize url env.base_url)
      have hvis := dispatchFetch_visited env
        { st with visited := env.normalize url env.base_url :: st.visited }
        url (env.normalize url env.base_url)
      have hst : ({ st with visited := env.normalize url env.base_url :: st.visited }
          : CrawlState).stats = st.stats := rfl
      have hvv : ({ st with visited := env.normalize url env.base_url :: st.visited }
          : CrawlState).visited = env.normalize url env.base_url :: st.visited := rfl
      rw [hst] at hs
      rw [hvv] at hvis
      unfold budgetInv at h ⊢
      rw [hvis]
      simp only [List.length_cons]
      omega
  · rw [crawlPage_blocked env st url (by simpa using hr)]
    exact h

lemma crawl_budgetInv (env : CrawlEnv) (reg0 : String → Option RegistryEntry)
    (fuel : Nat) :
    (crawl env reg0 fuel).stats.success + (crawl env reg0 fuel).stats.failed
      ≤ (crawl env reg0 fuel).visited.length := by
  have h := crawlLoop_invariant env budgetInv
    (budgetInv_crawlPage env) (fun st url rest hq h => h)
    fuel
    { visited := [], queue := [env.normalize env.base_url env.base_url],
      registry := reg0, stats := {}, files := [], fetched := [], tick := 0 }
    (by simp [budgetInv])
  exact h

/-! The page budget bound along the loop. -/

lemma crawlPage_visited_length (env : CrawlEnv) (st : CrawlState) (url : String) :
    (crawlPage env st url).visited.length ≤ st.visited.length + 1 := by
  by_cases hr : isAllowedByRobots env (env.normalize url env.base_url) = true
  · by_cases hv : env.normalize url env.base_url ∈ st.visited
    · rw [crawlPage_seen env st url hr hv]; omega
    · rw [crawlPage_new env st url hr hv, dispatchFetch_visited]
      simp
  · rw [crawlPage_blocked env st url (by simpa using hr)]
    simp

lemma crawlLoop_visited_le (env : CrawlEnv) :
    ∀ (fuel : Nat) (st : CrawlState), st.visited.length ≤ env.max_pages →
      (crawlLoop env fuel st).visited.length ≤ env.max_pages := by
  intro fuel
  induction fuel with
  | zero => intro st h; simpa [crawlLoop] using h
  | succ n ih =>
    intro st h
    rw [crawlLoop]
    rcases hq : st.queue with _ | ⟨u, rest⟩
    · exact h
    · simp only []
      split
      · rename_i hlt
        apply ih
        have := crawlPage_visited_length env { st with queue := rest } u
        simp only [] at this
        omega
      · exact h

/-! Once the guard fails the loop is inert. -/

lemma crawlLoop_stop_budget (env : CrawlEnv) (fuel : Nat) (st : CrawlState)
    (h : env.max_pages ≤ st.visited.length) : crawlLoop env fuel st = st := by
  cases fuel with
  | zero => rfl
  | succ n =>
    rw [crawlLoop]
    rcases hq : st.queue with _ | ⟨u, rest⟩
    · rfl
    · simp only []
      rw [if_neg]
      omega

lemma crawlLoop_stop_empty (env : CrawlEnv) (fuel : Nat) (st : CrawlState)
    (h : st.queue = []) : crawlLoop env fuel st = st := by
  cases fuel with
  | zero => rfl
  | succ n => rw [crawlLoop, h]

/-! Domain containment of the link filter. -/

/-- The host condition under which the link filter keeps a href: its resolved
netloc is empty or equals the base domain. -/
def keptNetloc (env : CrawlEnv) (current_url href : String) : Prop :=
  (urlparse (urljoin current_url href)).netloc = ""
  ∨ (urlparse (urljoin current_url href)).netloc = baseDomainNetloc env

lemma linkStep_keeps (env : CrawlEnv) (cur : String) (links : List String)
    (item : Option String) (href : String)
    (hm : href ∈ linkStep env cur links item) :
    href ∈ links ∨ keptNetloc env cur href := by
  rcases item with _ | h
  · exact Or.inl hm
  · simp only [linkStep] at hm
    split at hm
    · exact Or.inl hm
    · split at hm
      · exact Or.inl hm
      · split at hm
        · exact Or.inl hm
        · split at hm
          · exact Or.inl hm
          · rcases List.mem_append.mp hm with hm | hm
            · exact Or.inl hm
            · rw [List.mem_singleton] at hm
              subst hm
              rename_i hcond _ _
              right
              unfold keptNetloc
              rcases not_and_or.mp hcond with hc | hc
              · exact Or.inl (not_not.mp hc)
              · exact Or.inr (not_not.mp hc)

lemma foldl_linkStep_keeps (env : CrawlEnv) (cur : String) :
    ∀ (items : List (Option String)) (acc : List String),
      (∀ x ∈ acc, keptNetloc env cur x) →
      ∀ x ∈ items.foldl (linkStep env cur) acc, keptNetloc env cur x := by
  intro items
  induction items with
  | nil => intro acc hacc x hx; exact hacc x hx
  | cons it rest ih =>
    intro acc hacc x hx
    rw [List.foldl_cons] at hx
    refine ih (linkStep env cur acc it) ?_ x hx
    intro y hy
    rcases linkStep_keeps env cur acc it y hy with hy | hy
    · exact hacc y hy
    · exact hy

lemma extractLinks_keptNetloc (env : CrawlEnv) (r : FetchResult) (cur : String)
    (href : String) (hm : href ∈ extractLinks env r cur) : keptNetloc env cur href := by
  unfold extractLinks at hm
  rcases hl : r.links with _ | items
  · rw [hl] at hm; exact absurd hm (List.not_mem_nil href)
  · rw [hl] at hm
    exact foldl_linkStep_keeps env cur items []
      (fun x hx => absurd hx (List.not_mem_nil x)) href hm

/-! Title sensitivity of the framed content. -/

lemma frameContent_title_ne (nurl c ext t1 t2 : String) (h : t1 ≠ t2) :
    frameContent nurl t1 c ext ≠ frameContent nurl t2 c ext := by
  intro he
  apply h
  unfold frameContent at he
  by_cases hext : ext = "md"
  · rw [if_pos hext, if_pos hext] at he
    have hd := congrArg String.data he
    simp only [String.data_append, List.append_assoc] at hd
    have h1 := List.append_cancel_left hd
    have h2 := List.append_cancel_left h1
    have h3 := List.append_cancel_left h2
    simp only [← List.append_assoc] at h3
    have h4 := List.append_cancel_right h3
    have h5 := List.append_cancel_right h4
    have h6 := List.append_cancel_right h5
    exact String.ext h6
  · rw [if_neg hext, if_neg hext] at he
    have hd := congrArg String.data he
    simp only [String.data_append, List.append_assoc] at hd
    have h1 := List.append_cancel_left hd
    have h2 := List.append_cancel_left h1
    have h3 := List.append_cancel_left h2
    simp only [← List.append_assoc] at h3
    have h4 := List.append_cancel_right h3
    have h5 := List.append_cancel_right h4
    have h6 := List.append_cancel_right h5
    exact String.ext h6

/-! The claim theorems. -/

/-- Claim C1: within a crawl session every URL is fetched at most once. The
fetch trace of a whole session has no duplicates; a discovered link is enqueued
only when its normalized form is in neither the visited set nor the queue, and
then it is appended to the queue; a popped URL whose normalized form is already
visited is dropped with no state change, hence without a fetch; and in the
diamond graph where two distinct pages link to the same target, that target is
dispatched for fetching exactly once. -/
theorem claim_C1 :
    (∀ (env : CrawlEnv) (reg0 : String → Option RegistryEntry) (fuel : Nat),
        (crawl env reg0 fuel).fetched.Nodup)
    ∧ (∀ (env : CrawlEnv) (page_url : String) (s : CrawlState) (link : String),
        env.normalize link page_url ∈ s.visited ∨ env.normalize link page_url ∈ s.queue →
          enqueueOne env page_url s link = s)
    ∧ (∀ (env : CrawlEnv) (page_url : String) (s : CrawlState) (link : String),
        env.normalize link page_url ∉ s.visited → env.normalize link page_url ∉ s.queue →
          (enqueueOne env page_url s link).queue
            = s.queue ++ [env.normalize link page_url])
    ∧ (∀ (env : CrawlEnv) (st : CrawlState) (url : String),
        isAllowedByRobots env (env.normalize url env.base_url) = true →
          env.normalize url env.base_url ∈ st.visited → crawlPage env st url = st)
    ∧ (crawl envDiamond emptyReg 10).fetched.count "http://s/t" = 1 := by
  refine ⟨?_, ?_, ?_, ?_, by decide⟩
  · intro env reg0 fuel
    exact (crawl_visitOnceInv env reg0 fuel).1
  · intro env pu s l h
    simp only [enqueueOne]
    rw [if_neg]
    intro hc
    rcases h with h | h
    · exact hc.1 h
    · exact hc.2 h
  · intro env pu s l h1 h2
    simp only [enqueueOne]
    rw [if_pos ⟨h1, h2⟩]
  · intro env st url h1 h2
    exact crawlPage_seen env st url h1 h2

/-- Witness for C1 at concrete inputs: an already-queued link is not enqueued
again, a fresh link is appended, and an already-visited popped URL leaves the
state unchanged. -/
theorem claim_C1_witness :
    enqueueOne envDiamond "http://s/p1" stSeen "http://s/t" = stSeen
    ∧ (enqueueOne envDiamond "http://s/p1" stSeen "http://s/p2").queue
        = stSeen.queue ++ [envDiamond.normalize "http://s/p2" "http://s/p1"]
    ∧ crawlPage envDiamond stSeen "http://s/t" = stSeen := by
  refine ⟨claim_C1.2.1 envDiamond "http://s/p1" stSeen "http://s/t" (Or.inl (by decide)),
    claim_C1.2.2.1 envDiamond "http://s/p1" stSeen "http://s/p2" (by decide) (by decide),
    claim_C1.2.2.2.1 envDiamond stSeen "http://s/t" (by decide) (by decide)⟩

/-- Claim C3: the loop dispatches only while the queue is non-empty and the
visited count is below the page budget, so the visited set never exceeds the
budget and the loop is inert once either condition fails; with a budget of two
against a graph supplying unboundedly many fresh same-domain links, exactly two
pages are visited and a non-zero queue remainder is reported. -/
theorem claim_C3 :
    (∀ (env : CrawlEnv) (reg0 : String → Option RegistryEntry) (fuel : Nat),
        (crawl env reg0 fuel).visited.length ≤ env.max_pages)
    ∧ (∀ (env : CrawlEnv) (fuel : Nat) (st : CrawlState),
        env.max_pages ≤ st.visited.length → crawlLoop env fuel st = st)
    ∧ (∀ (env : CrawlEnv) (fuel : Nat) (st : CrawlState),
        st.queue = [] → crawlLoop env fuel st = st)
    ∧ (crawl envExpand emptyReg 10).visited.length = 2
    ∧ envExpand.max_pages = 2
    ∧ (crawl envExpand emptyReg 10).stats.queue_remaining = 3 := by
  refine ⟨?_, crawlLoop_stop_budget, crawlLoop_stop_empty, by decide, by decide, by decide⟩
  intro env reg0 fuel
  exact crawlLoop_visited_le env fuel
    { visited := [], queue := [env.normalize env.base_url env.base_url],
      registry := reg0, stats := {}, files := [], fetched := [], tick := 0 }
    (by simp)

/-- Witness for C3 at concrete inputs: the loop is inert at the budget and on
an empty queue. -/
theorem claim_C3_witness :
    crawlLoop envExpand 5 stB = stB ∧ crawlLoop envExpand 5 st0S = st0S :=
  ⟨claim_C3.2.1 envExpand 5 stB (by decide),
   claim_C3.2.2.1 envExpand 5 st0S (by decide)⟩

/-- Claim C4, amended: every href kept by the link filter resolves, against the
current page URL, to a host that is either empty or string-equal to the base
domain; a href whose resolved host is nonempty and differs from the base domain
is dropped. (The claim as stated fails: a link resolving to an empty host, such
as a mailto href, passes the filter and enters the frontier.) -/
theorem claim_C4 :
    (∀ (env : CrawlEnv) (r : FetchResult) (cur href : String),
        href ∈ extractLinks env r cur → keptNetloc env cur href)
    ∧ (∀ (env : CrawlEnv) (r : FetchResult) (cur href : String),
        (urlparse (urljoin cur href)).netloc ≠ "" →
        (urlparse (urljoin cur href)).netloc ≠ baseDomainNetloc env →
          href ∉ extractLinks env r cur) := by
  refine ⟨extractLinks_keptNetloc, ?_⟩
  intro env r cur href h1 h2 hm
  rcases extractLinks_keptNetloc env r cur href hm with h | h
  · exact h1 h
  · exact h2 h

/-- Counterexample to C4 as stated: a mailto href resolves to an empty host,
which is not string-equal to the base domain e, yet it passes the filter and
ends the session inside the frontier queue, while the genuine cross-domain
link is dropped. -/
theorem claim_C4_counterexample :
    (crawl envMailto emptyReg 5).queue = ["mailto:u@o"]
    ∧ (urlparse (urljoin "http://e/a" "mailto:u@o")).netloc = ""
    ∧ baseDomainNetloc envMailto = "e"
    ∧ "http://x/z" ∉ (crawl envMailto emptyReg 5).queue := by decide

/-- Witness for C4 at concrete inputs: the kept mailto link satisfies the host
condition, and the cross-domain link is dropped. -/
theorem claim_C4_witness :
    keptNetloc envMailto "http://e/a" "mailto:u@o"
    ∧ "http://x/z" ∉ extractLinks envMailto resMailto "http://e/a" :=
  ⟨claim_C4.1 envMailto resMailto "http://e/a" "mailto:u@o" (by decide),
   claim_C4.2 envMailto resMailto "http://e/a" "http://x/z" (by decide) (by decide)⟩

/-- Claim C6, amended: a popped URL that passes the politeness gate and whose
normalized form is not yet visited is marked visited at dispatch and is the
only URL handed to the fetch wrapper in that step; every fetched URL of a
session is in the visited set. The politeness gate however runs before the
visited check, so a policy-blocked URL is not marked visited: its dispatch
changes nothing but the skipped-by-robots counter. -/
theorem claim_C6 :
    (∀ (env : CrawlEnv) (st : CrawlState) (url : String),
        isAllowedByRobots env (env.normalize url env.base_url) = false →
          crawlPage env st url = { st with stats := { st.stats with
            skipped_by_robots := st.stats.skipped_by_robots + 1 } })
    ∧ (∀ (env : CrawlEnv) (st : CrawlState) (url : String),
        isAllowedByRobots env (env.normalize url env.base_url) = true →
        env.normalize url env.base_url ∉ st.visited →
          (crawlPage env st url).visited = env.normalize url env.base_url :: st.visited
          ∧ (crawlPage env st url).fetched
              = st.fetched ++ [env.normalize url env.base_url])
    ∧ (∀ (env : CrawlEnv) (reg0 : String → Option RegistryEntry) (fuel : Nat),
        ∀ u ∈ (crawl env reg0 fuel).fetched, u ∈ (crawl env reg0 fuel).visited) := by
  refine ⟨crawlPage_blocked, ?_, ?_⟩
  · intro env st url h1 h2
    rw [crawlPage_new env st url h1 h2]
    exact ⟨dispatchFetch_visited .., dispatchFetch_fetched ..⟩
  · intro env reg0 fuel
    exact (crawl_visitOnceInv env reg0 fuel).2

/-- Counterexample to C6 as stated: with a denying robots policy, the popped
URL is not marked visited and no fetch is attempted — the gate is evaluated
before the visited marking, not after it. -/
theorem claim_C6_counterexample :
    (crawlPage envDeny st0S "http://s").visited = []
    ∧ (crawlPage envDeny st0S "http://s").fetched = []
    ∧ (crawlPage envDeny st0S "http://s").stats.skipped_by_robots = 1 := by decide

/-- Witness for C6 at concrete inputs: a blocked dispatch only bumps the
robots counter, and an allowed fresh dispatch marks the URL visited. -/
theorem claim_C6_witness :
    crawlPage envDeny st0S "http://s" = { st0S with stats := { st0S.stats with
      skipped_by_robots := st0S.stats.skipped_by_robots + 1 } }
    ∧ (crawlPage envDiamond st0S "http://s/").visited
        = envDiamond.normalize "http://s/" envDiamond.base_url :: st0S.visited :=
  ⟨claim_C6.1 envDeny st0S "http://s" (by decide),
   (claim_C6.2.1 envDiamond st0S "http://s/" (by decide) (by decide)).1⟩

/-- Claim C7, amended: a discovered link with no dot in its parsed path is
always kept by the extension check; when a dot is present, the checked
extension is the text after the last dot anywhere in the path, cut at the next
slash — not the extension of the final path segment. The check lower-cases the
path and is unaffected by query and fragment. (The claim as stated fails: a
path whose final segment has no extension can still be dropped when an earlier
segment carries an excluded extension.) -/
theorem claim_C7 :
    (∀ (url : String) (exts : List String),
        (toLowerL (urlparse url).path.data).contains '.' = false →
          has_file_extension url exts = false)
    ∧ has_file_extension "http://e/f.PdF?q=1#z" EXCLUDED_FILE_EXTENSIONS = true
    ∧ has_file_extension "f.pdf?x=1" EXCLUDED_FILE_EXTENSIONS = true
    ∧ has_file_extension "http://e/page" EXCLUDED_FILE_EXTENSIONS = false
    ∧ has_file_extension "http://e/a.pdf/b" EXCLUDED_FILE_EXTENSIONS = true
    ∧ (∀ (url : String) (exts : List String),
        has_file_extension url exts = true →
          (toLowerL (urlparse url).path.data).contains '.' = true) := by
  refine ⟨?_, by decide, by decide, by decide, by decide, ?_⟩
  · intro url exts h
    have hne : ¬ ((toLowerL (urlparse url).path.data).contains '.' = true) := by
      intro hcontra
      rw [h] at hcontra
      exact Bool.false_ne_true hcontra
    simp only [has_file_extension, if_neg hne]
  · intro url exts h
    by_contra hc
    rw [Bool.not_eq_true] at hc
    have hne : ¬ ((toLowerL (urlparse url).path.data).contains '.' = true) := by
      intro hcontra
      rw [hc] at hcontra
      exact Bool.false_ne_true hcontra
    simp only [has_file_extension, if_neg hne] at h
    exact Bool.false_ne_true h

/-- Counterexample to C7 as stated: the final path segment b of
http://e/a.pdf/b has no extension, yet the link is dropped, because the code
reads the extension after the last dot of the whole path. -/
theorem claim_C7_counterexample :
    has_file_extension "http://e/a.pdf/b" EXCLUDED_FILE_EXTENSIONS = true
    ∧ ((splitChar '/' (urlparse "http://e/a.pdf/b").path.data).getLastD []).contains '.'
        = false
    ∧ extractLinks envC7 resC7 "http://e/a" = [] := by decide

/-- Witness for C7 at concrete inputs: a dotless path is kept, and a true
positive has a dot in its path. -/
theorem claim_C7_witness :
    has_file_extension "http://e/nodots" EXCLUDED_FILE_EXTENSIONS = false
    ∧ (toLowerL (urlparse "http://e/x.pdf").path.data).contains '.' = true :=
  ⟨claim_C7.1 "http://e/nodots" EXCLUDED_FILE_EXTENSIONS (by decide),
   claim_C7.2.2.2.2.2 "http://e/x.pdf" EXCLUDED_FILE_EXTENSIONS (by decide)⟩

/-- Claim C10: throughout a session the success and failed counters together
never exceed the visited count, both being bumped only after a URL joins the
visited set; a robots-denied dispatch bumps only the skipped-by-robots
counter, joining neither the visited set nor the success or failed counts, so
it does not consume the page budget (which is measured on the visited set). -/
theorem claim_C10 :
    (∀ (env : CrawlEnv) (reg0 : String → Option RegistryEntry) (fuel : Nat),
        (crawl env reg0 fuel).stats.success + (crawl env reg0 fuel).stats.failed
          ≤ (crawl env reg0 fuel).visited.length)
    ∧ (∀ (env : CrawlEnv) (st : CrawlState) (url : String),
        isAllowedByRobots env (env.normalize url env.base_url) = false →
          (crawlPage env st url).visited = st.visited
          ∧ (crawlPage env st url).stats.success = st.stats.success
          ∧ (crawlPage env st url).stats.failed = st.stats.failed
          ∧ (crawlPage env st url).stats.skipped_by_robots
              = st.stats.skipped_by_robots + 1) := by
  refine ⟨crawl_budgetInv, ?_⟩
  intro env st url h
  rw [crawlPage_blocked env st url h]
  exact ⟨rfl, rfl, rfl, rfl⟩

/-- Witness for C10 at a concrete input: a robots-denied dispatch leaves the
visited set and both counters unchanged and bumps the robots counter. -/
theorem claim_C10_witness :
    (crawlPage envDeny st0S "http://s/q").visited = st0S.visited
    ∧ (crawlPage envDeny st0S "http://s/q").stats.failed = st0S.stats.failed
    ∧ (crawlPage envDeny st0S "http://s/q").stats.skipped_by_robots
        = st0S.stats.skipped_by_robots + 1 := by
  have h := claim_C10.2 envDeny st0S "http://s/q" (by decide)
  exact ⟨h.1, h.2.2.1, h.2.2.2⟩

/-- Claim C2: the hash is computed over the entire framed content, a metadata
header with the canonical URL and extracted title plus the payload. When the
stored entry hash equals it, no file is written, the entry keeps its stored
path while its timestamp advances to the current tick, and success and
skipped-unchanged are both counted. When the hash differs or no entry exists
(and the write does not fail), the file is written and the entry is upserted
with the new hash, the new timestamp and the new path. Byte-identical framed
content therefore compares Unchanged, and under an injective digest a change
in the title alone changes the hash and forces a rewrite. -/
theorem claim_C2 :
    (∀ (nurl title content : String),
        frameContent nurl title content "md"
          = "---\nURL: " ++ nurl ++ "\nЗаголовок: " ++ title ++ "\n---\n\n"
              ++ content ++ "\n")
    ∧ (∀ (env : CrawlEnv) (st : CrawlState) (url nurl content ext title : String),
        (st.registry nurl).bind RegistryEntry.hash
            = Option.some (env.sha256 (frameContent nurl title content ext)) →
          (persistFramed env st url nurl content ext title).files = st.files
          ∧ (persistFramed env st url nurl content ext title).stats.success
              = st.stats.success + 1
          ∧ (persistFramed env st url nurl content ext title).stats.skipped_unchanged
              = st.stats.skipped_unchanged + 1
          ∧ (persistFramed env st url nurl content ext title).registry nurl
              = Option.some
                  { hash := Option.some (env.sha256 (frameContent nurl title content ext)),
                    last_crawled := Option.some st.tick,
                    path := Option.some
                      (((st.registry nurl).bind RegistryEntry.path).getD
                        (url_to_file_path env.md5hex12 url env.site_code
                          env.site_output_dir ext)) })
    ∧ (∀ (env : CrawlEnv) (st : CrawlState) (url nurl content ext title : String),
        (st.registry nurl).bind RegistryEntry.hash
            ≠ Option.some (env.sha256 (frameContent nurl title content ext)) →
        env.writeError (url_to_file_path env.md5hex12 url env.site_code
            env.site_output_dir ext) = Option.none →
          (persistFramed env st url nurl content ext title).files
              = st.files ++ [(url_to_file_path env.md5hex12 url env.site_code
                  env.site_output_dir ext, frameContent nurl title content ext)]
          ∧ (persistFramed env st url nurl content ext title).stats.success
              = st.stats.success + 1
          ∧ (persistFramed env st url nurl content ext title).stats.skipped_unchanged
              = st.stats.skipped_unchanged
          ∧ (persistFramed env st url nurl content ext title).registry nurl
              = Option.some
                  { hash := Option.some (env.sha256 (frameContent nurl title content ext)),
                    last_crawled := Option.some st.tick,
                    path := Option.some (url_to_file_path env.md5hex12 url
                      env.site_code env.site_output_dir ext) })
    ∧ (∀ (env : CrawlEnv) (nurl content ext t1 t2 : String),
        Function.Injective env.sha256 → t1 ≠ t2 →
          env.sha256 (frameContent nurl t1 content ext)
            ≠ env.sha256 (frameContent nurl t2 content ext)) := by
  refine ⟨?_, ?_, ?_, ?_⟩
  · intro nurl title content
    simp [frameContent]
  · intro env st url nurl content ext title h
    simp only [persistFramed]
    rw [if_pos h]
    refine ⟨rfl, rfl, rfl, ?_⟩
    simp [updateReg]
  · intro env st url nurl content ext title h hw
    simp only [persistFramed]
    rw [if_neg h, hw]
    refine ⟨rfl, rfl, rfl, ?_⟩
    simp [updateReg]
  · intro env nurl content ext t1 t2 hinj hne hcontra
    exact frameContent_title_ne nurl content ext t1 t2 hne (hinj hcontra)

/-- Witness for C2 at concrete inputs: an unchanged evaluation writes no file,
a changed one appends the framed file, and the identity digest separates two
frames differing only in the title. -/
theorem claim_C2_witness :
    (persistFramed envC2 stC2 "u" "u" "c" "md" "t").files = stC2.files
    ∧ (persistFramed envC2 stC2 "u" "u" "c" "md" "t").stats.skipped_unchanged
        = stC2.stats.skipped_unchanged + 1
    ∧ (persistFramed envC2 stC2 "u" "u" "c2" "md" "t").files
        = stC2.files ++ [(url_to_file_path envC2.md5hex12 "u" envC2.site_code
            envC2.site_output_dir "md", frameContent "u" "t" "c2" "md")]
    ∧ envC2.sha256 (frameContent "u" "a" "c" "md")
        ≠ envC2.sha256 (frameContent "u" "b" "c" "md") := by
  have hu := claim_C2.2.1 envC2 stC2 "u" "u" "c" "md" "t" (by decide)
  have hch := claim_C2.2.2.1 envC2 stC2 "u" "u" "c2" "md" "t" (by decide) (by decide)
  have ht := claim_C2.2.2.2 envC2 "u" "c" "md" "a" "b" (fun a b hab => hab) (by decide)
  exact ⟨hu.1, hu.2.2.1, hch.1, ht⟩

/-- Claim C5: the fetch wrapper returns the primary outcome when it does not
raise; when the primary attempt raises a navigation-timeout error it retries
exactly once, returning whatever the fallback attempt yields (its error, if
any, propagates); any other raised error propagates untouched; at most one
retry ever happens; a propagated error is converted by the page evaluation
into one more failure recorded under the error text; and in the concrete
timeout-then-success scenario the result is the fallback success after exactly
two attempts. -/
theorem claim_C5 :
    (∀ (env : CrawlEnv) (url : String) (r : FetchResult),
        env.fetchPrimary url = Except.ok r →
          fetchWithTimeoutHandling env url = (Except.ok r, 1))
    ∧ (∀ (env : CrawlEnv) (url e : String),
        env.fetchPrimary url = Except.error e →
        strContains e navTimeoutMarker = true →
          fetchWithTimeoutHandling env url = (env.fetchFallback url, 2))
    ∧ (∀ (env : CrawlEnv) (url e : String),
        env.fetchPrimary url = Except.error e →
        strContains e navTimeoutMarker = false →
          fetchWithTimeoutHandling env url = (Except.error e, 1))
    ∧ (∀ (env : CrawlEnv) (url : String), (fetchWithTimeoutHandling env url).2 ≤ 2)
    ∧ (∀ (env : CrawlEnv) (st : CrawlState) (url e : String),
        isAllowedByRobots env (env.normalize url env.base_url) = true →
        env.normalize url env.base_url ∉ st.visited →
        (fetchWithTimeoutHandling env (env.normalize url env.base_url)).1
            = Except.error e →
          (crawlPage env st url).stats.failed = st.stats.failed + 1
          ∧ (crawlPage env st url).stats.errors e = st.stats.errors e + 1)
    ∧ fetchWithTimeoutHandling envTO "http://s" = (Except.ok resTO, 2) := by
  refine ⟨?_, ?_, ?_, ?_, ?_, rfl⟩
  · intro env url r h
    simp [fetchWithTimeoutHandling, h]
  · intro env url e h ht
    simp [fetchWithTimeoutHandling, h, ht]
  · intro env url e h ht
    simp [fetchWithTimeoutHandling, h, ht]
  · intro env url
    cases h : env.fetchPrimary url with
    | ok r => simp [fetchWithTimeoutHandling, h]
    | error e =>
      simp only [fetchWithTimeoutHandling, h]
      split <;> simp
  · intro env st url e h1 h2 h3
    rw [crawlPage_new env st url h1 h2]
    simp only [dispatchFetch, h3]
    exact ⟨rfl, by simp [bumpError]⟩

/-- Witness for C5 at concrete inputs: a non-timeout error propagates with one
attempt and is recorded by the page evaluation under its own text. -/
theorem claim_C5_witness :
    fetchWithTimeoutHandling envErr "http://s" = (Except.error "boom", 1)
    ∧ (crawlPage envErr st0S "http://s").stats.failed = st0S.stats.failed + 1
    ∧ (crawlPage envErr st0S "http://s").stats.errors "boom"
        = st0S.stats.errors "boom" + 1 := by
  have h1 := claim_C5.2.2.1 envErr "http://s" "boom" rfl (by decide)
  have h2 := claim_C5.2.2.2.2.1 envErr st0S "http://s" "boom" (by decide) (by decide) rfl
  exact ⟨h1, h2.1, h2.2⟩

/-- Claim C8: link discovery is independent of the terminal state. The whole
persistence phase leaves the queue and both link counters untouched; a page
whose fetch returned success with an allowed status reduces to the persistence
phase applied after link enqueueing, whatever the content, title or hash turn
out to be; and concretely both an empty-content page and an unchanged page
still contribute their discovered link to the frontier. -/
theorem claim_C8 :
    (∀ (env : CrawlEnv) (st : CrawlState) (u n : String) (r : FetchResult),
        (evaluateAndPersist env st u n r).queue = st.queue
        ∧ (evaluateAndPersist env st u n r).stats.links_found = st.stats.links_found
        ∧ (evaluateAndPersist env st u n r).stats.links_added = st.stats.links_added)
    ∧ (∀ (env : CrawlEnv) (st : CrawlState) (url : String) (r : FetchResult),
        isAllowedByRobots env (env.normalize url env.base_url) = true →
        env.normalize url env.base_url ∉ st.visited →
        (fetchWithTimeoutHandling env (env.normalize url env.base_url)).1
            = Except.ok r →
        r.success = true →
        r.status_code ≠ Option.some 403 →
        r.status_code ≠ Option.some 404 →
          crawlPage env st url
            = evaluateAndPersist env
                (enqueueLinks env
                  { st with
                    visited := env.normalize url env.base_url :: st.visited
                    fetched := st.fetched ++ [env.normalize url env.base_url] }
                  url (extractLinks env r url))
                url (env.normalize url env.base_url) r)
    ∧ (crawlPage envEmptyC st0S "http://s").queue = ["http://s/l"]
    ∧ (crawlPage envEmptyC st0S "http://s").stats.errors "Нет контента" = 1
    ∧ (crawlPage envU stU "http://s").queue = ["http://s/l"]
    ∧ (crawlPage envU stU "http://s").stats.skipped_unchanged = 1
    ∧ (crawlPage envU stU "http://s").files = [] := by
  refine ⟨?_, ?_, by decide, by decide, by decide, by decide, by decide⟩
  · intro env st u n r
    exact ⟨evaluateAndPersist_queue env st u n r,
      evaluateAndPersist_links_found env st u n r,
      evaluateAndPersist_links_added env st u n r⟩
  · intro env st url r h1 h2 h3 hs h403 h404
    rw [crawlPage_new env st url h1 h2]
    simp only [dispatchFetch, h3]
    simp only [handleResult, hs, h403, h404]
    simp

/-- Witness for C8 at a concrete input: a fresh successful page reduces to the
persistence phase after link enqueueing. -/
theorem claim_C8_witness :
    crawlPage envDiamond st0S "http://s/t"
      = evaluateAndPersist envDiamond
          (enqueueLinks envDiamond
            { st0S with
              visited := envDiamond.normalize "http://s/t" envDiamond.base_url
                :: st0S.visited
              fetched := st0S.fetched
                ++ [envDiamond.normalize "http://s/t" envDiamond.base_url] }
            "http://s/t" (extractLinks envDiamond (okResult [] "x") "http://s/t"))
          "http://s/t" (envDiamond.normalize "http://s/t" envDiamond.base_url)
          (okResult [] "x") :=
  claim_C8.2.1 envDiamond st0S "http://s/t" (okResult [] "x")
    (by decide) (by decide) rfl (by decide) (by decide) (by decide)

/-- Claim C9: every per-page error is caught at the page-evaluation boundary
and becomes one more failure with an error-kind label: a raised fetch error
under its own text, a success-false outcome under its error message, 403 and
404 under their labels, empty content under the content label, and a failed
file write under the raised text (with no file recorded); the session loop
then continues, as in the concrete graph where an interior page raises and the
remaining pages are still evaluated. -/
theorem claim_C9 :
    (∀ (env : CrawlEnv) (st : CrawlState) (url : String) (r : FetchResult),
        isAllowedByRobots env (env.normalize url env.base_url) = true →
        env.normalize url env.base_url ∉ st.visited →
        (fetchWithTimeoutHandling env (env.normalize url env.base_url)).1
            = Except.ok r →
        r.success = false →
          (crawlPage env st url).stats.failed = st.stats.failed + 1
          ∧ (crawlPage env st url).stats.errors
                (r.error_message.getD "Неизвестная ошибка")
              = st.stats.errors (r.error_message.getD "Неизвестная ошибка") + 1)
    ∧ (∀ (env : CrawlEnv) (st : CrawlState) (url : String) (r : FetchResult),
        isAllowedByRobots env (env.normalize url env.base_url) = true →
        env.normalize url env.base_url ∉ st.visited →
        (fetchWithTimeoutHandling env (env.normalize url env.base_url)).1
            = Except.ok r →
        r.success = true →
        r.status_code = Option.some 403 →
          (crawlPage env st url).stats.failed = st.stats.failed + 1
          ∧ (crawlPage env st url).stats.errors "403 Forbidden"
              = st.stats.errors "403 Forbidden" + 1)
    ∧ (∀ (env : CrawlEnv) (st : CrawlState) (url : String) (r : FetchResult),
        isAllowedByRobots env (env.normalize url env.base_url) = true →
        env.normalize url env.base_url ∉ st.visited →
        (fetchWithTimeoutHandling env (env.normalize url env.base_url)).1
            = Except.ok r →
        r.success = true →
        r.status_code ≠ Option.some 403 →
        r.status_code = Option.some 404 →
          (crawlPage env st url).stats.failed = st.stats.failed + 1
          ∧ (crawlPage env st url).stats.errors "404 Not Found"
              = st.stats.errors "404 Not Found" + 1)
    ∧ (∀ (env : CrawlEnv) (st : CrawlState) (url : String) (r : FetchResult),
        isAllowedByRobots env (env.normalize url env.base_url) = true →
        env.normalize url env.base_url ∉ st.visited →
        (fetchWithTimeoutHandling env (env.normalize url env.base_url)).1
            = Except.ok r →
        r.success = true →
        r.status_code ≠ Option.some 403 →
        r.status_code ≠ Option.some 404 →
        pyTruthy (extractContent env r).1 = false →
          (crawlPage env st url).stats.failed = st.stats.failed + 1
          ∧ (crawlPage env st url).stats.errors "Нет контента"
              = st.stats.errors "Нет контента" + 1)
    ∧ (∀ (env : CrawlEnv) (st : CrawlState) (url nurl content ext title e : String),
        (st.registry nurl).bind RegistryEntry.hash
            ≠ Option.some (env.sha256 (frameContent nurl title content ext)) →
        env.writeError (url_to_file_path env.md5hex12 url env.site_code
            env.site_output_dir ext) = Option.some e →
          (persistFramed env st url nurl content ext title).stats.failed
              = st.stats.failed + 1
          ∧ (persistFramed env st url nurl content ext title).stats.errors e
              = st.stats.errors e + 1
          ∧ (persistFramed env st url nurl content ext title).files = st.files)
    ∧ (crawl envFail emptyReg 10).visited.length = 3
    ∧ (crawl envFail emptyReg 10).stats.success = 2
    ∧ (crawl envFail emptyReg 10).stats.failed = 1
    ∧ (crawl envFail emptyReg 10).stats.errors "boom" = 1 := by
  refine ⟨?_, ?_, ?_, ?_, ?_, by decide, by decide, by decide, by decide⟩
  · intro env st url r h1 h2 h3 hs
    rw [crawlPage_new env st url h1 h2]
    simp only [dispatchFetch, h3]
    simp only [handleResult, hs]
    exact ⟨rfl, by simp [bumpError]⟩
  · intro env st url r h1 h2 h3 hs h403
    rw [crawlPage_new env st url h1 h2]
    simp only [dispatchFetch, h3]
    simp only [handleResult, hs, h403]
    exact ⟨rfl, by simp [bumpError]⟩
  · intro env st url r h1 h2 h3 hs h403 h404
    rw [crawlPage_new env st url h1 h2]
    simp only [dispatchFetch, h3]
    simp only [handleResult, hs, h403, h404]
    exact ⟨rfl, by simp [bumpError]⟩
  · intro env st url r h1 h2 h3 hs h403 h404 hc
    rw [crawlPage_new env st url h1 h2]
    simp only [dispatchFetch, h3]
    simp only [handleResult, hs, h403, h404]
    simp only [evaluateAndPersist, hc]
    constructor
    · simp
    · simp [bumpError]
  · intro env st url nurl content ext title e h hw
    simp only [persistFramed]
    rw [if_neg h, hw]
    exact ⟨rfl, by simp [bumpError], rfl⟩

/-- Witness for C9 at concrete inputs: a success-false outcome is recorded
under its error message, and a failed write is recorded under the raised text
with no file written. -/
theorem claim_C9_witness :
    (crawlPage envResFail st0S "http://s").stats.failed = st0S.stats.failed + 1
    ∧ (crawlPage envResFail st0S "http://s").stats.errors "net::ERR"
        = st0S.stats.errors "net::ERR" + 1
    ∧ (persistFramed envWErr st0S "u" "u" "c" "md" "t").stats.failed
        = st0S.stats.failed + 1
    ∧ (persistFramed envWErr st0S "u" "u" "c" "md" "t").files = st0S.files := by
  have hb := claim_C9.1 envResFail st0S "http://s" resFail
    (by decide) (by decide) rfl (by decide)
  have hf := claim_C9.2.2.2.2.1 envWErr st0S "u" "u" "c" "md" "t" "disk full"
    (by decide) (by decide)
  exact ⟨hb.1, hb.2, hf.1, hf.2.2⟩

end Crawler
